import Mathlib

/-!
Verification of the zerolag scoring-and-recommendation engine.

The model below is a shallow embedding of `src/zerolag/scoring.py`
(`score_system`, `clamp`) and of the recommendation engine
`_recommendations` in `src/zerolag/core.py`.  Python floats are modelled
as exact rationals (`ℚ`); Python's `round` builtin (round half to even)
is modelled by `pyRound` / `round1`.  Display-only string fields
(`reason`, `why`, `action`, the `inputs` echo and the `mode` echo of the
result dict) are elided: no claim inspects them.
-/

namespace Zerolag

/-- Source: `clamp(n, lo, hi)` in scoring.py: `max(lo, min(hi, n))`. -/
def clamp (n lo hi : ℚ) : ℚ := max lo (min hi n)

/-- Python's builtin `round(q)` to an integer: round half to even. -/
def pyRound (q : ℚ) : ℤ :=
  if q - (⌊q⌋ : ℚ) < 1/2 then ⌊q⌋
  else if 1/2 < q - (⌊q⌋ : ℚ) then ⌊q⌋ + 1
  else if ⌊q⌋ % 2 = 0 then ⌊q⌋ else ⌊q⌋ + 1

/-- Python's `round(q, 1)`: round to one decimal digit, half to even. -/
def round1 (q : ℚ) : ℚ := (pyRound (10 * q) : ℚ) / 10

/-- One disk entry of the snapshot: `{mountpoint, free_pct}`;
`free_pct` may be absent (`None`). -/
structure Disk where
  mountpoint : String
  free_pct : Option ℚ
deriving DecidableEq, Repr

/-- The snapshot fields the engine reads (all numeric fields optional;
`startup_items` enters only through its length, modelled as a count). -/
structure Snapshot where
  cpu_pct : Option ℚ
  ram_used_pct : Option ℚ
  disks : List Disk
  startup_items : ℕ
deriving DecidableEq, Repr

/-- One breakdown entry `{tag, penalty, reason}` (reason elided);
`penalty` is the clamped penalty rounded to one decimal. -/
structure Entry where
  tag : String
  penalty : ℚ
deriving DecidableEq, Repr

/-- The score result `{mode, score, band, inputs, breakdown}`
(the `mode` and `inputs` echo fields are elided). -/
structure ScoreResult where
  score : ℤ
  band : String
  breakdown : List Entry
deriving DecidableEq, Repr

/-- scoring.py: `ram_warn = 70 if not gaming else 60`. -/
def ram_warn : Bool → ℚ
  | true => 60
  | false => 70

/-- scoring.py: `ram_bad = 85 if not gaming else 75`. -/
def ram_bad : Bool → ℚ
  | true => 75
  | false => 85

/-- scoring.py: `cpu_warn = 60 if not gaming else 50`. -/
def cpu_warn : Bool → ℚ
  | true => 50
  | false => 60

/-- scoring.py: `cpu_bad = 85 if not gaming else 75`. -/
def cpu_bad : Bool → ℚ
  | true => 75
  | false => 85

/-- scoring.py: `disk_warn = 25 if not gaming else 30`. -/
def disk_warn : Bool → ℚ
  | true => 30
  | false => 25

/-- scoring.py: `disk_bad = 15 if not gaming else 20`. -/
def disk_bad : Bool → ℚ
  | true => 20
  | false => 15

/-- scoring.py: `startup_warn = 7 if not gaming else 6`. -/
def startup_warn : Bool → ℕ
  | true => 6
  | false => 7

/-- scoring.py: `startup_bad = 12 if not gaming else 10`. -/
def startup_bad : Bool → ℕ
  | true => 10
  | false => 12

/-- The clamping applied inside `penalize`: `clamp(penalty, 0, 40)`. -/
def penClamp (p : ℚ) : ℚ := clamp p 0 40

/-- RAM branch of `score_system` (scoring.py lines 60-63): the fired
tag and clamped (un-display-rounded) penalty, if any. -/
def ramPen (gaming : Bool) (ram_used : ℚ) : Option (String × ℚ) :=
  if ram_used ≥ ram_bad gaming then
    some ("RAM", penClamp (25 + (ram_used - ram_bad gaming) * 0.6))
  else if ram_used ≥ ram_warn gaming then
    some ("RAM", penClamp (10 + (ram_used - ram_warn gaming) * 0.4))
  else none

/-- Disk branch of `score_system` (scoring.py lines 66-69). -/
def diskPen (gaming : Bool) (disk_free_pct : ℚ) : Option (String × ℚ) :=
  if disk_free_pct ≤ disk_bad gaming then
    some ("Disk", penClamp (25 + (disk_bad gaming - disk_free_pct) * 0.8))
  else if disk_free_pct ≤ disk_warn gaming then
    some ("Disk", penClamp (10 + (disk_warn gaming - disk_free_pct) * 0.5))
  else none

/-- Startup branch of `score_system` (scoring.py lines 72-75). -/
def startupPen (gaming : Bool) (startup_n : ℕ) : Option (String × ℚ) :=
  if startup_n ≥ startup_bad gaming then
    some ("Startup", penClamp (18 + ((startup_n : ℚ) - (startup_bad gaming : ℚ)) * 0.7))
  else if startup_n ≥ startup_warn gaming then
    some ("Startup", penClamp (8 + ((startup_n : ℚ) - (startup_warn gaming : ℚ)) * 0.8))
  else none

/-- CPU branch of `score_system` (scoring.py lines 78-81). -/
def cpuPen (gaming : Bool) (cpu_pct : ℚ) : Option (String × ℚ) :=
  if cpu_pct ≥ cpu_bad gaming then
    some ("CPU", penClamp (18 + (cpu_pct - cpu_bad gaming) * 0.5))
  else if cpu_pct ≥ cpu_warn gaming then
    some ("CPU", penClamp (7 + (cpu_pct - cpu_warn gaming) * 0.4))
  else none

/-- scoring.py line 32-33: the worst reported `free_pct`, or `100.0`
when no disk reports a value (`min` over the present values). -/
def diskFreeMin (disks : List Disk) : ℚ :=
  match disks.filterMap (fun d => d.free_pct) with
  | [] => 100
  | x :: xs => xs.foldl min x

/-- The fired `(tag, clamped penalty)` pairs, in the source's fixed
evaluation order RAM, Disk, Startup, CPU.  The source appends them to
`breakdown` through the `penalize` closure while subtracting from the
running score; the fold below is that same sequence of appends. -/
def firedPens (gaming : Bool) (cpu_pct ram_used disk_free : ℚ) (startup_n : ℕ) :
    List (String × ℚ) :=
  (ramPen gaming ram_used).toList ++ (diskPen gaming disk_free).toList ++
    (startupPen gaming startup_n).toList ++ (cpuPen gaming cpu_pct).toList

/-- The penalty a category branch contributes to the running score:
`0` when the branch does not fire. -/
def optPen (o : Option (String × ℚ)) : ℚ :=
  match o with
  | none => 0
  | some p => p.2

/-- scoring.py line 83: the clamped real-valued score before the final
integer rounding: `clamp(100 - Σ penalties, 0, 100)`. -/
def clampedScore (gaming : Bool) (cpu_pct ram_used disk_free : ℚ) (startup_n : ℕ) : ℚ :=
  clamp (100 - ((firedPens gaming cpu_pct ram_used disk_free startup_n).map Prod.snd).sum) 0 100

/-- scoring.py line 85: the band is computed from the clamped
real-valued score (before `int(round(score))`). -/
def bandOf (sc : ℚ) : String :=
  if sc ≥ 85 then "Excellent" else if sc ≥ 70 then "Good"
  else if sc ≥ 55 then "Fair" else "Poor"

/-- Assembles the result dict of `score_system` from the already-coerced
numeric metrics (scoring.py lines 50-97). -/
def mkResult (gaming : Bool) (cpu_pct ram_used disk_free : ℚ) (startup_n : ℕ) : ScoreResult :=
  { score := pyRound (clampedScore gaming cpu_pct ram_used disk_free startup_n)
  , band := bandOf (clampedScore gaming cpu_pct ram_used disk_free startup_n)
  , breakdown := (firedPens gaming cpu_pct ram_used disk_free startup_n).map
      (fun p => { tag := p.1, penalty := round1 p.2 }) }

/-- scoring.py lines 27-33: `float(... or 0.0)` turns an absent/None
metric into `0.0`. -/
def numOr0 (v : Option ℚ) : ℚ := v.getD 0

/-- `score_system(data, mode)` of scoring.py on a well-typed snapshot;
`gaming` is `mode == "gaming"` after the source's normalisation. -/
def score_system (s : Snapshot) (gaming : Bool) : ScoreResult :=
  mkResult gaming (numOr0 s.cpu_pct) (numOr0 s.ram_used_pct)
    (diskFreeMin s.disks) s.startup_items

/-- The clamped pre-rounding score of `score_system` on a snapshot. -/
def floatScore (s : Snapshot) (gaming : Bool) : ℚ :=
  clampedScore gaming (numOr0 s.cpu_pct) (numOr0 s.ram_used_pct)
    (diskFreeMin s.disks) s.startup_items

/-- Recommendation priority levels of core.py. -/
inductive Priority where
  | High
  | Medium
  | Low
deriving DecidableEq, Repr

/-- A recommendation `{priority, title, why, action}` (the fixed
`why`/`action` template strings are elided). -/
structure Recommendation where
  priority : Priority
  title : String
deriving DecidableEq, Repr

/-- core.py line 146: `warn = 25 if not gaming else 30`. -/
def rec_disk_warn : Bool → ℚ
  | true => 30
  | false => 25

/-- core.py line 147: `bad = 15 if not gaming else 20`. -/
def rec_disk_bad : Bool → ℚ
  | true => 20
  | false => 15

/-- core.py line 173: `ram_warn = 70 if not gaming else 60`. -/
def rec_ram_warn : Bool → ℚ
  | true => 60
  | false => 70

/-- core.py line 174: `ram_bad = 85 if not gaming else 75`. -/
def rec_ram_bad : Bool → ℚ
  | true => 75
  | false => 85

/-- core.py line 196: `s_warn = 7 if not gaming else 6`. -/
def rec_startup_warn : Bool → ℕ
  | true => 6
  | false => 7

/-- core.py line 197: `s_bad = 12 if not gaming else 10`. -/
def rec_startup_bad : Bool → ℕ
  | true => 10
  | false => 12

/-- core.py line 219: `c_warn = 60 if not gaming else 50`. -/
def rec_cpu_warn : Bool → ℚ
  | true => 50
  | false => 60

/-- core.py line 220: `c_bad = 85 if not gaming else 75`. -/
def rec_cpu_bad : Bool → ℚ
  | true => 75
  | false => 85

/-- Per-disk branch of `_recommendations` (core.py lines 149-169):
`if free_pct is not None and free_pct < bad` emits High,
`elif free_pct is not None and free_pct < warn` emits Medium. -/
def diskRec (gaming : Bool) (d : Disk) : Option Recommendation :=
  match d.free_pct with
  | none => none
  | some v =>
    if v < rec_disk_bad gaming then
      some { priority := .High, title := "Low free space on " ++ d.mountpoint }
    else if v < rec_disk_warn gaming then
      some { priority := .Medium, title := "Free space getting tight on " ++ d.mountpoint }
    else none

/-- RAM branch of `_recommendations` (core.py lines 172-192). -/
def ramRec (gaming : Bool) (used_pct : Option ℚ) : Option Recommendation :=
  match used_pct with
  | none => none
  | some v =>
    if v ≥ rec_ram_bad gaming then some { priority := .High, title := "High RAM usage" }
    else if v ≥ rec_ram_warn gaming then some { priority := .Medium, title := "RAM pressure" }
    else none

/-- Startup branch of `_recommendations` (core.py lines 195-215). -/
def startupRec (gaming : Bool) (startup_n : ℕ) : Option Recommendation :=
  if startup_n ≥ rec_startup_bad gaming then
    some { priority := .High, title := "Many startup items" }
  else if startup_n ≥ rec_startup_warn gaming then
    some { priority := .Medium, title := "Several startup items" }
  else none

/-- CPU branch of `_recommendations` (core.py lines 218-238): note the
warn-level entry is emitted with priority Low. -/
def cpuRec (gaming : Bool) (cpu_pct : Option ℚ) : Option Recommendation :=
  match cpu_pct with
  | none => none
  | some v =>
    if v ≥ rec_cpu_bad gaming then
      some { priority := .High, title := "High CPU usage at scan time" }
    else if v ≥ rec_cpu_warn gaming then
      some { priority := .Low, title := "CPU moderately loaded" }
    else none

/-- core.py lines 241-249: the gaming-mode checklist tip. -/
def gamingTip : Recommendation := { priority := .Low, title := "Gaming mode checklist" }

/-- core.py lines 252-259: first unconditional baseline tip. -/
def baselineDrivers : Recommendation :=
  { priority := .Low, title := "Keep drivers and Windows updated" }

/-- core.py lines 260-267: second unconditional baseline tip. -/
def baselineStorage : Recommendation := { priority := .Low, title := "Storage hygiene" }

/-- core.py line 269: `order = {"High": 0, "Medium": 1, "Low": 2}`
(the default `9` for unknown keys is unreachable with the enum). -/
def priorityRank : Priority → ℕ
  | .High => 0
  | .Medium => 1
  | .Low => 2

/-- The sort key relation of core.py line 270. -/
def recLE (a b : Recommendation) : Prop :=
  priorityRank a.priority ≤ priorityRank b.priority

instance : DecidableRel recLE := fun _ _ => Nat.decLe _ _

instance : IsTotal Recommendation recLE := ⟨fun _ _ => Nat.le_total _ _⟩

instance : IsTrans Recommendation recLE := ⟨fun _ _ _ => Nat.le_trans⟩

/-- The recommendation list as generated, before the final sort
(core.py lines 142-267, appends in source order). -/
def recsGenerated (s : Snapshot) (gaming : Bool) : List Recommendation :=
  s.disks.filterMap (diskRec gaming) ++ (ramRec gaming s.ram_used_pct).toList ++
    (startupRec gaming s.startup_items).toList ++ (cpuRec gaming s.cpu_pct).toList ++
    (if gaming then [gamingTip] else []) ++ [baselineDrivers, baselineStorage]

/-- `_recommendations(data, mode)` of core.py: the generated list
stably sorted by priority rank (Python's `list.sort` is stable;
insertion sort with the non-strict key relation is the same stable
sort). -/
def recommendations (s : Snapshot) (gaming : Bool) : List Recommendation :=
  List.insertionSort recLE (recsGenerated s gaming)

/-- Severity level of a threshold branch: warn or bad. -/
inductive Sev where
  | warn
  | bad
deriving DecidableEq, Repr

/-- Which disk branch of the Scorer fires on a free-percentage value
(scoring.py lines 66-69: `<=` comparisons). -/
def scoreDiskSev (gaming : Bool) (v : ℚ) : Option Sev :=
  if v ≤ disk_bad gaming then some .bad
  else if v ≤ disk_warn gaming then some .warn
  else none

/-- Which disk branch of the Recommendation Engine fires on a
free-percentage value (core.py lines 152-161: strict `<` comparisons). -/
def recDiskSev (gaming : Bool) (v : ℚ) : Option Sev :=
  if v < rec_disk_bad gaming then some .bad
  else if v < rec_disk_warn gaming then some .warn
  else none

/-- The disk recommendation a severity level produces for a mount point
(core.py lines 152-169). -/
def sevDiskRec (mp : String) : Sev → Recommendation
  | .bad => { priority := .High, title := "Low free space on " ++ mp }
  | .warn => { priority := .Medium, title := "Free space getting tight on " ++ mp }

/-- A raw metric field as found in the input dict: absent (or `None`),
a number, or a truthy non-numeric value on which Python's `float()`
raises `ValueError`. -/
inductive RawField where
  | absent
  | num (q : ℚ)
  | badStr
deriving DecidableEq, Repr

/-- Whether the raw field is a non-numeric (float-raising) value. -/
def RawField.isBad : RawField → Bool
  | .badStr => true
  | _ => false

/-- Whether the raw field is absent/None. -/
def RawField.isAbsent : RawField → Bool
  | .absent => true
  | _ => false

/-- The numeric content of a raw field, if any. -/
def RawField.toNum : RawField → Option ℚ
  | .num q => some q
  | _ => none

/-- scoring.py lines 27-28: `float(x or 0.0)` — absent/None becomes
`0.0`; a number passes through (`0` is falsy but `float(0.0) = 0.0`);
a non-numeric value raises. -/
def floatOrZero : RawField → Except Unit ℚ
  | .absent => .ok 0
  | .num q => .ok q
  | .badStr => .error ()

/-- A raw disk entry. -/
structure RawDisk where
  mountpoint : String
  free_pct : RawField
deriving DecidableEq, Repr

/-- A raw snapshot whose numeric fields may be absent or malformed. -/
structure RawSnapshot where
  cpu_pct : RawField
  ram_used_pct : RawField
  disks : List RawDisk
  startup_items : ℕ
deriving DecidableEq, Repr

/-- scoring.py lines 32-33: keep the `free_pct` values that are
`not None`, then `float(min(...))` if nonempty else `100.0`.  A kept
non-numeric value makes `min`/`float` raise (`TypeError` on a mixed
list, `ValueError` from `float` otherwise). -/
def rawFreeMin (disks : List RawDisk) : Except Unit ℚ :=
  let kept := (disks.map (fun d => d.free_pct)).filter (fun f => !f.isAbsent)
  if kept.isEmpty then .ok 100
  else if kept.any RawField.isBad then .error ()
  else .ok (match kept.filterMap RawField.toNum with
            | [] => 100
            | x :: xs => xs.foldl min x)

/-- `score_system` of scoring.py including the fallible `float()`
coercions of its input-reading prologue (lines 22-33). -/
def score_systemE (raw : RawSnapshot) (gaming : Bool) : Except Unit ScoreResult := do
  let cpu ← floatOrZero raw.cpu_pct
  let ram ← floatOrZero raw.ram_used_pct
  let dmin ← rawFreeMin raw.disks
  .ok (mkResult gaming cpu ram dmin raw.startup_items)

/-- The well-typed view of a raw snapshot with no malformed fields. -/
def toSnapshot (raw : RawSnapshot) : Snapshot :=
  { cpu_pct := raw.cpu_pct.toNum
  , ram_used_pct := raw.ram_used_pct.toNum
  , disks := raw.disks.map (fun d => { mountpoint := d.mountpoint, free_pct := d.free_pct.toNum })
  , startup_items := raw.startup_items }

/-- Follows the spec's words (claim C1): the score-to-band table
`>= 85 Excellent, >= 70 Good, >= 55 Fair, else Poor` applied to the
reported integer score field. -/
def specBand (n : ℤ) : String :=
  if n ≥ 85 then "Excellent" else if n ≥ 70 then "Good"
  else if n ≥ 55 then "Fair" else "Poor"

/-! ### Helper lemmas about rounding and clamping -/

theorem floor_le_pyRound (q : ℚ) : ⌊q⌋ ≤ pyRound q := by
  unfold pyRound
  split_ifs <;> omega

theorem pyRound_le_floor_add_one (q : ℚ) : pyRound q ≤ ⌊q⌋ + 1 := by
  unfold pyRound
  split_ifs <;> omega

theorem pyRound_le_half (q : ℚ) : (pyRound q : ℚ) ≤ q + 1/2 := by
  have h1 : (⌊q⌋ : ℚ) ≤ q := Int.floor_le q
  unfold pyRound
  split_ifs <;> push_cast <;> linarith

theorem half_le_pyRound (q : ℚ) : q - 1/2 ≤ (pyRound q : ℚ) := by
  have h1 : (⌊q⌋ : ℚ) ≤ q := Int.floor_le q
  have h2 : q < (⌊q⌋ : ℚ) + 1 := Int.lt_floor_add_one q
  unfold pyRound
  split_ifs <;> push_cast <;> linarith

theorem pyRound_mono {x y : ℚ} (h : x ≤ y) : pyRound x ≤ pyRound y := by
  have hf : ⌊x⌋ ≤ ⌊y⌋ := Int.floor_mono h
  rcases lt_or_eq_of_le hf with hlt | heq
  · have h1 := pyRound_le_floor_add_one x
    have h2 := floor_le_pyRound y
    omega
  · unfold pyRound
    rw [← heq]
    have hcast : ((⌊x⌋ : ℚ)) ≤ x := Int.floor_le x
    split_ifs <;> first | omega | linarith

theorem clamp_mono {a b lo hi : ℚ} (h : a ≤ b) : clamp a lo hi ≤ clamp b lo hi :=
  max_le_max le_rfl (min_le_min le_rfl h)

theorem lo_le_clamp (a lo hi : ℚ) : lo ≤ clamp a lo hi :=
  le_max_left _ _

theorem clamp_le_hi {a lo hi : ℚ} (h : lo ≤ hi) : clamp a lo hi ≤ hi :=
  max_le h (min_le_left _ _)

theorem penClamp_nonneg (p : ℚ) : 0 ≤ penClamp p :=
  lo_le_clamp p 0 40

theorem penClamp_mono {a b : ℚ} (h : a ≤ b) : penClamp a ≤ penClamp b :=
  clamp_mono h

theorem toList_snd_sum (o : Option (String × ℚ)) :
    ((o.toList).map Prod.snd).sum = optPen o := by
  cases o <;> simp [optPen]

theorem firedPens_sum (gaming : Bool) (c r d : ℚ) (n : ℕ) :
    ((firedPens gaming c r d n).map Prod.snd).sum =
      optPen (ramPen gaming r) + optPen (diskPen gaming d) +
        optPen (startupPen gaming n) + optPen (cpuPen gaming c) := by
  unfold firedPens
  simp only [List.map_append, List.sum_append, toList_snd_sum]
  try ring

theorem ramPen_gaming_ge (x : ℚ) : optPen (ramPen false x) ≤ optPen (ramPen true x) := by
  simp only [ramPen, ram_warn, ram_bad]
  split_ifs <;>
    simp only [optPen] <;>
    first
      | rfl
      | exact penClamp_nonneg _
      | exact penClamp_mono (by linarith)
      | linarith

theorem diskPen_gaming_ge (x : ℚ) : optPen (diskPen false x) ≤ optPen (diskPen true x) := by
  simp only [diskPen, disk_warn, disk_bad]
  split_ifs <;>
    simp only [optPen] <;>
    first
      | rfl
      | exact penClamp_nonneg _
      | exact penClamp_mono (by linarith)
      | linarith

theorem startupPen_gaming_ge (n : ℕ) :
    optPen (startupPen false n) ≤ optPen (startupPen true n) := by
  simp only [startupPen, startup_warn, startup_bad]
  split_ifs <;>
    simp only [optPen] <;>
    first
      | rfl
      | exact penClamp_nonneg _
      | (exfalso; omega)
      | (apply penClamp_mono
         have h6 : (6:ℚ) ≤ (n:ℚ) := by exact_mod_cast by omega
         have h12 : (n:ℚ) < 12 := by exact_mod_cast by omega
         push_cast
         linarith)
      | (apply penClamp_mono; push_cast; linarith)

theorem cpuPen_gaming_ge (x : ℚ) : optPen (cpuPen false x) ≤ optPen (cpuPen true x) := by
  simp only [cpuPen, cpu_warn, cpu_bad]
  split_ifs <;>
    simp only [optPen] <;>
    first
      | rfl
      | exact penClamp_nonneg _
      | exact penClamp_mono (by linarith)
      | linarith

theorem le_pyRound_of_le {q : ℚ} {B : ℤ} (h : (B:ℚ) ≤ q) : B ≤ pyRound q :=
  le_trans (Int.le_floor.mpr h) (floor_le_pyRound q)

theorem pyRound_boundary {q : ℚ} {B : ℤ} (hq : q < (B:ℚ)) (hn : B ≤ pyRound q) :
    pyRound q = B := by
  have ha := pyRound_le_half q
  have hub : pyRound q ≤ B := by
    by_contra hc
    push_neg at hc
    have hcast : ((B:ℚ) + 1) ≤ (pyRound q : ℚ) := by exact_mod_cast hc
    linarith
  omega

theorem bandOf_eq_specBand {q : ℚ} (h55 : pyRound q ≠ 55) (h70 : pyRound q ≠ 70)
    (h85 : pyRound q ≠ 85) : bandOf q = specBand (pyRound q) := by
  unfold bandOf specBand
  split_ifs <;> try rfl
  all_goals exfalso
  all_goals
    first
      | (have h := le_pyRound_of_le (q := q) (B := 85) (by push_cast; linarith); omega)
      | (have h := le_pyRound_of_le (q := q) (B := 70) (by push_cast; linarith); omega)
      | (have h := le_pyRound_of_le (q := q) (B := 55) (by push_cast; linarith); omega)
      | (have h := pyRound_boundary (q := q) (B := 85) (by push_cast; linarith) (by omega); omega)
      | (have h := pyRound_boundary (q := q) (B := 70) (by push_cast; linarith) (by omega); omega)
      | (have h := pyRound_boundary (q := q) (B := 55) (by push_cast; linarith) (by omega); omega)

theorem ramPen_tags (gaming : Bool) (x : ℚ) :
    ((ramPen gaming x).toList.map Prod.fst) =
      if ram_warn gaming ≤ x then ["RAM"] else [] := by
  cases gaming <;>
    · simp only [ramPen, ram_warn, ram_bad]
      split_ifs <;> first | (exfalso; linarith) | simp

theorem diskPen_tags (gaming : Bool) (x : ℚ) :
    ((diskPen gaming x).toList.map Prod.fst) =
      if x ≤ disk_warn gaming then ["Disk"] else [] := by
  cases gaming <;>
    · simp only [diskPen, disk_warn, disk_bad]
      split_ifs <;> first | (exfalso; linarith) | simp

theorem startupPen_tags (gaming : Bool) (n : ℕ) :
    ((startupPen gaming n).toList.map Prod.fst) =
      if startup_warn gaming ≤ n then ["Startup"] else [] := by
  cases gaming <;>
    · simp only [startupPen, startup_warn, startup_bad]
      split_ifs <;> first | (exfalso; omega) | simp

theorem cpuPen_tags (gaming : Bool) (x : ℚ) :
    ((cpuPen gaming x).toList.map Prod.fst) =
      if cpu_warn gaming ≤ x then ["CPU"] else [] := by
  cases gaming <;>
    · simp only [cpuPen, cpu_warn, cpu_bad]
      split_ifs <;> first | (exfalso; linarith) | simp

theorem breakdown_tags (s : Snapshot) (gaming : Bool) :
    (score_system s gaming).breakdown.map Entry.tag =
      (firedPens gaming (numOr0 s.cpu_pct) (numOr0 s.ram_used_pct)
        (diskFreeMin s.disks) s.startup_items).map Prod.fst := by
  unfold score_system mkResult
  simp [List.map_map, Function.comp]

theorem clampedScore_gaming_le (c r d : ℚ) (n : ℕ) :
    clampedScore true c r d n ≤ clampedScore false c r d n := by
  unfold clampedScore
  apply clamp_mono
  rw [firedPens_sum, firedPens_sum]
  have h1 := ramPen_gaming_ge r
  have h2 := diskPen_gaming_ge d
  have h3 := startupPen_gaming_ge n
  have h4 := cpuPen_gaming_ge c
  linarith

theorem foldl_min_all_eq {a : ℚ} {xs : List ℚ} (h : ∀ x ∈ xs, x = a) :
    xs.foldl min a = a := by
  induction xs with
  | nil => rfl
  | cons y ys ih =>
    have hy : y = a := h y (List.mem_cons_self y ys)
    rw [List.foldl_cons, hy, min_self]
    exact ih fun x hx => h x (List.mem_cons_of_mem _ hx)

theorem diskFreeMin_all_100 {disks : List Disk}
    (h : ∀ d ∈ disks, d.free_pct = some 100) : diskFreeMin disks = 100 := by
  have hall : ∀ x ∈ disks.filterMap (fun d => d.free_pct), x = (100:ℚ) := by
    intro x hx
    rcases List.mem_filterMap.mp hx with ⟨d, hd, hfd⟩
    rw [h d hd] at hfd
    exact (Option.some_inj.mp hfd).symm
  unfold diskFreeMin
  cases hcase : disks.filterMap (fun d => d.free_pct) with
  | nil => rfl
  | cons y ys =>
    have hy : y = (100:ℚ) := hall y (hcase ▸ List.mem_cons_self _ _)
    rw [hy]
    exact foldl_min_all_eq fun x hx => hall x (hcase ▸ List.mem_cons_of_mem _ hx)

theorem filterMap_nil_of_none {α β : Type} {f : α → Option β} {l : List α}
    (h : ∀ a ∈ l, f a = none) : l.filterMap f = [] := by
  induction l with
  | nil => rfl
  | cons x xs ih =>
    rw [List.filterMap_cons, h x (List.mem_cons_self x xs)]
    exact ih fun a ha => h a (List.mem_cons_of_mem _ ha)

theorem isAbsent_absent : RawField.absent.isAbsent = true := rfl

theorem isAbsent_num (q : ℚ) : (RawField.num q).isAbsent = false := rfl

theorem isBad_num (q : ℚ) : (RawField.num q).isBad = false := rfl

theorem toNum_absent : RawField.absent.toNum = none := rfl

theorem toNum_num (q : ℚ) : (RawField.num q).toNum = some q := rfl

theorem kept_eq_map_num {disks : List RawDisk}
    (h : ∀ d ∈ disks, d.free_pct.isBad = false) :
    ((disks.map (fun d => d.free_pct)).filter (fun f => !f.isAbsent)) =
      (disks.filterMap (fun d => d.free_pct.toNum)).map RawField.num := by
  induction disks with
  | nil => rfl
  | cons d ds ih =>
    have hd := h d (List.mem_cons_self _ _)
    have hds : ∀ x ∈ ds, x.free_pct.isBad = false :=
      fun x hx => h x (List.mem_cons_of_mem _ hx)
    cases hfp : d.free_pct with
    | absent =>
      rw [List.map_cons, List.filter_cons, List.filterMap_cons, hfp]
      simp only [isAbsent_absent, toNum_absent, Bool.not_true]
      rw [if_neg (by simp)]
      exact ih hds
    | num q =>
      rw [List.map_cons, List.filter_cons, List.filterMap_cons, hfp]
      simp only [isAbsent_num, toNum_num, Bool.not_false, if_true]
      rw [List.map_cons, ih hds]
    | badStr =>
      rw [hfp] at hd
      simp [RawField.isBad] at hd

theorem any_isBad_map_num (l : List ℚ) :
    ((l.map RawField.num).any RawField.isBad) = false := by
  induction l with
  | nil => rfl
  | cons x xs ih => simp [isBad_num, ih]

theorem filterMap_toNum_map_num (l : List ℚ) :
    ((l.map RawField.num).filterMap RawField.toNum) = l := by
  induction l with
  | nil => rfl
  | cons x xs ih => rw [List.map_cons, List.filterMap_cons, toNum_num, ih]

theorem mapped_free_eq (disks : List RawDisk) :
    ((disks.map (fun d : RawDisk =>
        ({ mountpoint := d.mountpoint, free_pct := d.free_pct.toNum } : Disk))).filterMap
      (fun d => d.free_pct)) = disks.filterMap (fun d => d.free_pct.toNum) := by
  induction disks with
  | nil => rfl
  | cons d ds ih =>
    rw [List.map_cons, List.filterMap_cons, List.filterMap_cons]
    cases d.free_pct.toNum <;> simp [ih]

theorem rawFreeMin_ok {disks : List RawDisk}
    (h : ∀ d ∈ disks, d.free_pct.isBad = false) :
    rawFreeMin disks = .ok (diskFreeMin (disks.map
      (fun d => { mountpoint := d.mountpoint, free_pct := d.free_pct.toNum }))) := by
  have hm := mapped_free_eq disks
  unfold rawFreeMin diskFreeMin
  rw [kept_eq_map_num h, hm]
  cases hl : disks.filterMap (fun d => d.free_pct.toNum) with
  | nil => rfl
  | cons x xs =>
    have h1 := any_isBad_map_num (x :: xs)
    have h2 := filterMap_toNum_map_num (x :: xs)
    simp only [List.map_cons] at h1 h2 ⊢
    simp [h1, h2]

theorem recommendations_sorted (s : Snapshot) (gaming : Bool) :
    (recommendations s gaming).Sorted recLE :=
  List.sorted_insertionSort recLE _

theorem recommendations_length (s : Snapshot) (gaming : Bool) :
    (recommendations s gaming).length = (recsGenerated s gaming).length :=
  (List.perm_insertionSort recLE _).length_eq

theorem pyRound_zero : pyRound (0:ℚ) = 0 := by
  with_unfolding_all rfl

theorem pyRound_hundred : pyRound (100:ℚ) = 100 := by
  with_unfolding_all rfl

theorem diskRec_count (gaming : Bool) (l : List Disk) :
    (l.filterMap (diskRec gaming)).length =
      l.countP (fun d => d.free_pct.elim false
        (fun v => decide (v < rec_disk_warn gaming))) := by
  induction l with
  | nil => rfl
  | cons d ds ih =>
    rw [List.filterMap_cons, List.countP_cons]
    cases hfp : d.free_pct with
    | none => simp [diskRec, hfp, Option.elim, ih]
    | some v =>
      have hbw : rec_disk_bad gaming < rec_disk_warn gaming := by
        cases gaming <;> simp only [rec_disk_bad, rec_disk_warn] <;> norm_num
      by_cases h1 : v < rec_disk_bad gaming
      · have h2 : v < rec_disk_warn gaming := lt_trans h1 hbw
        simp [diskRec, hfp, h1, h2, Option.elim, ih]
      · by_cases h2 : v < rec_disk_warn gaming
        · simp [diskRec, hfp, h1, h2, Option.elim, ih]
        · simp [diskRec, hfp, h1, h2, Option.elim, ih]

/-! ### Claim theorems -/

/-- Claim C8: an all-healthy snapshot (cpu 0, ram 0, every disk free_pct 100,
no startup items) yields score 100, band Excellent and an empty breakdown,
in both modes. -/
theorem all_healthy_perfect_score (gaming : Bool) (disks : List Disk)
    (h : ∀ d ∈ disks, d.free_pct = some 100) :
    score_system (⟨some 0, some 0, disks, 0⟩ : Snapshot) gaming =
      { score := 100, band := "Excellent", breakdown := [] } := by
  have hd := diskFreeMin_all_100 h
  show mkResult gaming (numOr0 (some 0)) (numOr0 (some 0)) (diskFreeMin disks) 0 = _
  rw [hd]
  cases gaming <;> with_unfolding_all rfl

/-- Witness for C8 at a concrete one-disk snapshot in gaming mode. -/
theorem all_healthy_perfect_score_witness :
    score_system (⟨some 0, some 0, [⟨"C:", some 100⟩], 0⟩ : Snapshot) true =
      { score := 100, band := "Excellent", breakdown := [] } :=
  all_healthy_perfect_score true _ (by simp)

/-- Claim C9: ram_used_pct 90 with everything else healthy, general mode:
the RAM bad branch fires with penalty 28, score 72, band Good. -/
theorem ram_90_general_bad_branch :
    score_system (⟨some 0, some 90, [⟨"C:", some 100⟩], 0⟩ : Snapshot) false =
      { score := 72, band := "Good", breakdown := [{ tag := "RAM", penalty := 28 }] } := by
  with_unfolding_all rfl

/-- Counterexample to claim C1: cpu 81 in general mode gives a clamped real
score of 84.6, so the reported integer score is 85 but the band is "Good";
ram 82.5 also gives integer score 85 with band "Excellent".  The band is
therefore not a function of the integer score field, and disagrees with the
spec's table at 85. -/
theorem band_not_function_of_int_score_cex :
    (score_system (⟨some 81, none, [], 0⟩ : Snapshot) false).score = 85 ∧
    (score_system (⟨some 81, none, [], 0⟩ : Snapshot) false).band = "Good" ∧
    (score_system (⟨none, some (82.5:ℚ), [], 0⟩ : Snapshot) false).score = 85 ∧
    (score_system (⟨none, some (82.5:ℚ), [], 0⟩ : Snapshot) false).band = "Excellent" ∧
    specBand 85 = "Excellent" := by
  refine ⟨?_, ?_, ?_, ?_, ?_⟩ <;> with_unfolding_all rfl

/-- Claim C1 as amended: the band is a pure function (the 85/70/55 table) of
the clamped real-valued score before integer rounding, not of the reported
integer score; the table applied to the integer score agrees with the band
whenever the integer score is not exactly 55, 70 or 85. -/
theorem band_pure_function_of_float_score (s : Snapshot) (gaming : Bool) :
    (score_system s gaming).band = bandOf (floatScore s gaming) ∧
    (score_system s gaming).score = pyRound (floatScore s gaming) ∧
    ((score_system s gaming).score ≠ 55 → (score_system s gaming).score ≠ 70 →
      (score_system s gaming).score ≠ 85 →
      (score_system s gaming).band = specBand (score_system s gaming).score) :=
  ⟨rfl, rfl, fun h55 h70 h85 => bandOf_eq_specBand h55 h70 h85⟩

/-- Witness for the amended C1 at an all-healthy snapshot (score 100). -/
theorem band_pure_function_of_float_score_witness :
    (score_system (⟨some 0, some 0, [], 0⟩ : Snapshot) false).band =
      bandOf (floatScore (⟨some 0, some 0, [], 0⟩ : Snapshot) false) ∧
    (score_system (⟨some 0, some 0, [], 0⟩ : Snapshot) false).band =
      specBand ((score_system (⟨some 0, some 0, [], 0⟩ : Snapshot) false).score) := by
  have hsc : (score_system (⟨some 0, some 0, [], 0⟩ : Snapshot) false).score = 100 := by with_unfolding_all rfl
  exact ⟨(band_pure_function_of_float_score _ _).1,
    (band_pure_function_of_float_score _ _).2.2
      (by rw [hsc]; decide) (by rw [hsc]; decide) (by rw [hsc]; decide)⟩

/-- Counterexample to claim C2: with cpu 60.6, ram 70.35 and one disk at
24.72 free in general mode the code reports score 72, but
`round(clamp(100 - Σ amount, 0, 100))` over the breakdown's displayed
`amount` fields (each rounded to one decimal) gives 73: the stored amounts
are rounded for display while the score subtracts the unrounded penalties. -/
theorem score_not_from_displayed_amounts_cex :
    (score_system (⟨some (60.6:ℚ), some (70.35:ℚ), [⟨"C:", some (24.72:ℚ)⟩], 0⟩ : Snapshot) false).score = 72 ∧
    ((score_system (⟨some (60.6:ℚ), some (70.35:ℚ), [⟨"C:", some (24.72:ℚ)⟩], 0⟩ : Snapshot) false).breakdown.map Entry.penalty) = [10.1, 10.1, 7.2] ∧
    pyRound (clamp (100 -
      (((score_system (⟨some (60.6:ℚ), some (70.35:ℚ), [⟨"C:", some (24.72:ℚ)⟩], 0⟩ : Snapshot) false).breakdown.map Entry.penalty).sum)) 0 100) = 73 := by
  refine ⟨?_, ?_, ?_⟩ <;> with_unfolding_all rfl

/-- Claim C2 as amended: the score is `round(clamp(100 - Σ p, 0, 100))` over
the clamped penalties `p` as subtracted (before the one-decimal display
rounding stored in the breakdown's amount fields), the breakdown stores
exactly those penalties rounded to one decimal, and the score always lies
in [0, 100]. -/
theorem score_clamp_invariant (s : Snapshot) (gaming : Bool) :
    (score_system s gaming).score =
      pyRound (clamp (100 - ((firedPens gaming (numOr0 s.cpu_pct) (numOr0 s.ram_used_pct)
        (diskFreeMin s.disks) s.startup_items).map Prod.snd).sum) 0 100) ∧
    (score_system s gaming).breakdown =
      (firedPens gaming (numOr0 s.cpu_pct) (numOr0 s.ram_used_pct)
        (diskFreeMin s.disks) s.startup_items).map
          (fun p => { tag := p.1, penalty := round1 p.2 }) ∧
    0 ≤ (score_system s gaming).score ∧ (score_system s gaming).score ≤ 100 := by
  refine ⟨rfl, rfl, ?_, ?_⟩
  · have h0 : (0:ℚ) ≤ clampedScore gaming (numOr0 s.cpu_pct) (numOr0 s.ram_used_pct)
        (diskFreeMin s.disks) s.startup_items := lo_le_clamp _ 0 100
    have := pyRound_mono h0
    rw [pyRound_zero] at this
    exact this
  · have h1 : clampedScore gaming (numOr0 s.cpu_pct) (numOr0 s.ram_used_pct)
        (diskFreeMin s.disks) s.startup_items ≤ (100:ℚ) := clamp_le_hi (by norm_num)
    have := pyRound_mono h1
    rw [pyRound_hundred] at this
    exact this

/-- Claim C5: on the same snapshot, the gaming-mode score never exceeds the
general-mode score (stated, as in the spec, for snapshots that trigger at
least one threshold; the inequality holds for every snapshot). -/
theorem gaming_score_le_general (s : Snapshot)
    (_triggered : (score_system s false).breakdown ≠ [] ∨
      (score_system s true).breakdown ≠ []) :
    (score_system s true).score ≤ (score_system s false).score :=
  pyRound_mono (clampedScore_gaming_le _ _ _ _)

/-- Witness for C5 at ram 90 (both modes fire the RAM branch). -/
theorem gaming_score_le_general_witness :
    ((score_system (⟨some 0, some 90, [], 0⟩ : Snapshot) false).breakdown ≠ [] ∨
      (score_system (⟨some 0, some 90, [], 0⟩ : Snapshot) true).breakdown ≠ []) ∧
    (score_system (⟨some 0, some 90, [], 0⟩ : Snapshot) true).score ≤
      (score_system (⟨some 0, some 90, [], 0⟩ : Snapshot) false).score := by
  have hb : (score_system (⟨some 0, some 90, [], 0⟩ : Snapshot) false).breakdown = [{ tag := "RAM", penalty := 28 }] := by
    with_unfolding_all rfl
  exact ⟨Or.inl (by rw [hb]; simp),
    gaming_score_le_general _ (Or.inl (by rw [hb]; simp))⟩

/-- Claim C6: the breakdown has an entry exactly for the categories whose
metric crosses at least the warn cutoff, and the entries appear in the
fixed order RAM, Disk, Startup, CPU. -/
theorem breakdown_exact_warn_categories (s : Snapshot) (gaming : Bool) :
    (score_system s gaming).breakdown.map Entry.tag =
      (if ram_warn gaming ≤ numOr0 s.ram_used_pct then ["RAM"] else []) ++
      (if diskFreeMin s.disks ≤ disk_warn gaming then ["Disk"] else []) ++
      (if startup_warn gaming ≤ s.startup_items then ["Startup"] else []) ++
      (if cpu_warn gaming ≤ numOr0 s.cpu_pct then ["CPU"] else []) := by
  rw [breakdown_tags]
  unfold firedPens
  simp only [List.map_append]
  rw [ramPen_tags, diskPen_tags, startupPen_tags, cpuPen_tags]

/-- Counterexample to claim C3: a present non-numeric cpu value makes the
`float()` coercion raise instead of being treated as "no penalty". -/
theorem score_raises_on_malformed_cex :
    score_systemE (⟨.badStr, .absent, [], 0⟩ : RawSnapshot) false = .error () := by
  with_unfolding_all rfl

/-- Claim C3 as amended: scoring never fails when every present metric field
is numeric — absent/None fields contribute no penalty for their category and
block no other category — but a present non-numeric value raises. -/
theorem score_total_on_numeric_fields (raw : RawSnapshot) (gaming : Bool)
    (hc : raw.cpu_pct.isBad = false) (hr : raw.ram_used_pct.isBad = false)
    (hd : ∀ d ∈ raw.disks, d.free_pct.isBad = false) :
    score_systemE raw gaming = .ok (score_system (toSnapshot raw) gaming) ∧
    (raw.cpu_pct = .absent →
      "CPU" ∉ (score_system (toSnapshot raw) gaming).breakdown.map Entry.tag) ∧
    (raw.ram_used_pct = .absent →
      "RAM" ∉ (score_system (toSnapshot raw) gaming).breakdown.map Entry.tag) := by
  refine ⟨?_, ?_, ?_⟩
  · cases hcpu : raw.cpu_pct with
    | badStr => rw [hcpu] at hc; simp [RawField.isBad] at hc
    | absent =>
      cases hram : raw.ram_used_pct with
      | badStr => rw [hram] at hr; simp [RawField.isBad] at hr
      | absent =>
        simp only [score_systemE, floatOrZero, hcpu, hram, rawFreeMin_ok hd,
          score_system, toSnapshot, numOr0, RawField.toNum, Option.getD_none,
          Option.getD_some]
        rfl
      | num q =>
        simp only [score_systemE, floatOrZero, hcpu, hram, rawFreeMin_ok hd,
          score_system, toSnapshot, numOr0, RawField.toNum, Option.getD_none,
          Option.getD_some]
        rfl
    | num p =>
      cases hram : raw.ram_used_pct with
      | badStr => rw [hram] at hr; simp [RawField.isBad] at hr
      | absent =>
        simp only [score_systemE, floatOrZero, hcpu, hram, rawFreeMin_ok hd,
          score_system, toSnapshot, numOr0, RawField.toNum, Option.getD_none,
          Option.getD_some]
        rfl
      | num q =>
        simp only [score_systemE, floatOrZero, hcpu, hram, rawFreeMin_ok hd,
          score_system, toSnapshot, numOr0, RawField.toNum, Option.getD_none,
          Option.getD_some]
        rfl
  · intro habs
    have h0 : cpuPen gaming 0 = none := by
      cases gaming <;> with_unfolding_all rfl
    have hval : numOr0 (toSnapshot raw).cpu_pct = 0 := by
      show numOr0 raw.cpu_pct.toNum = 0
      rw [habs]
      rfl
    rw [breakdown_tags]
    unfold firedPens
    rw [hval, h0]
    simp only [List.map_append, Option.toList_none, List.map_nil, List.append_nil]
    rw [ramPen_tags, diskPen_tags, startupPen_tags]
    intro hmem
    rcases List.mem_append.mp hmem with hmem | hmem
    · rcases List.mem_append.mp hmem with hmem | hmem <;>
        · split at hmem <;> simp_all
    · split at hmem <;> simp_all
  · intro habs
    have h0 : ramPen gaming 0 = none := by
      cases gaming <;> with_unfolding_all rfl
    have hval : numOr0 (toSnapshot raw).ram_used_pct = 0 := by
      show numOr0 raw.ram_used_pct.toNum = 0
      rw [habs]
      rfl
    rw [breakdown_tags]
    unfold firedPens
    rw [hval, h0]
    simp only [List.map_append, Option.toList_none, List.map_nil, List.nil_append]
    rw [diskPen_tags, startupPen_tags, cpuPen_tags]
    intro hmem
    rcases List.mem_append.mp hmem with hmem | hmem
    · rcases List.mem_append.mp hmem with hmem | hmem <;>
        · split at hmem <;> simp_all
    · split at hmem <;> simp_all

/-- Witness for the amended C3: an all-absent raw snapshot scores
successfully with no CPU or RAM entry, in gaming mode. -/
theorem score_total_on_numeric_fields_witness :
    score_systemE (⟨.absent, .absent, [], 0⟩ : RawSnapshot) true =
      .ok (score_system (toSnapshot (⟨.absent, .absent, [], 0⟩ : RawSnapshot)) true) ∧
    "CPU" ∉ (score_system (toSnapshot (⟨.absent, .absent, [], 0⟩ : RawSnapshot))
        true).breakdown.map Entry.tag :=
  ⟨(score_total_on_numeric_fields (⟨.absent, .absent, [], 0⟩ : RawSnapshot) true
      rfl rfl (by simp)).1,
   (score_total_on_numeric_fields (⟨.absent, .absent, [], 0⟩ : RawSnapshot) true
      rfl rfl (by simp)).2.1 rfl⟩

/-- Claim C7: the recommendation list always has at least the two baseline
tips, and in gaming mode with no other trigger it is exactly the gaming tip
followed by the two baselines (three entries). -/
theorem recommendation_list_baselines :
    (∀ (s : Snapshot) (gaming : Bool), 2 ≤ (recommendations s gaming).length) ∧
    (∀ s : Snapshot,
      (∀ d ∈ s.disks, ∀ v, d.free_pct = some v → 30 ≤ v) →
      (∀ v, s.ram_used_pct = some v → v < 60) →
      s.startup_items < 6 →
      (∀ v, s.cpu_pct = some v → v < 50) →
      recommendations s true = [gamingTip, baselineDrivers, baselineStorage]) := by
  constructor
  · intro s gaming
    rw [recommendations_length]
    unfold recsGenerated
    simp only [List.length_append, List.length_cons, List.length_nil]
    omega
  · intro s hd hr hn hc
    have h1 : s.disks.filterMap (diskRec true) = [] := by
      apply filterMap_nil_of_none
      intro d hdm
      cases hfp : d.free_pct with
      | none => simp [diskRec, hfp]
      | some v =>
        have h30 := hd d hdm v hfp
        simp only [diskRec, hfp]
        rw [if_neg (by simp only [rec_disk_bad, not_lt]; linarith),
          if_neg (by simp only [rec_disk_warn, not_lt]; linarith)]
    have h2 : ramRec true s.ram_used_pct = none := by
      cases hram : s.ram_used_pct with
      | none => simp [ramRec]
      | some v =>
        have hv := hr v hram
        simp only [ramRec]
        rw [if_neg (by simp only [rec_ram_bad, not_le]; linarith),
          if_neg (by simp only [rec_ram_warn, not_le]; linarith)]
    have h3 : startupRec true s.startup_items = none := by
      unfold startupRec
      rw [if_neg (by simp only [rec_startup_bad, not_le]; omega),
        if_neg (by simp only [rec_startup_warn, not_le]; omega)]
    have h4 : cpuRec true s.cpu_pct = none := by
      cases hcpu : s.cpu_pct with
      | none => simp [cpuRec]
      | some v =>
        have hv := hc v hcpu
        simp only [cpuRec]
        rw [if_neg (by simp only [rec_cpu_bad, not_le]; linarith),
          if_neg (by simp only [rec_cpu_warn, not_le]; linarith)]
    unfold recommendations recsGenerated
    rw [h1, h2, h3, h4]
    rfl

/-- Witness for C7: concrete all-absent snapshots in each mode. -/
theorem recommendation_list_baselines_witness :
    2 ≤ (recommendations (⟨none, none, [], 0⟩ : Snapshot) false).length ∧
    recommendations (⟨none, none, [], 0⟩ : Snapshot) true =
      [gamingTip, baselineDrivers, baselineStorage] :=
  ⟨recommendation_list_baselines.1 (⟨none, none, [], 0⟩ : Snapshot) false,
   recommendation_list_baselines.2 (⟨none, none, [], 0⟩ : Snapshot)
     (by simp) (by simp) (by decide) (by simp)⟩

/-- Claim C10: the warn-level CPU recommendation has priority Low while
the warn-level disk, RAM and startup recommendations have priority Medium,
and the final list is ordered by priority rank, so the CPU warn entry sorts
with the Low tips after every Medium entry. -/
theorem cpu_warn_rec_low_priority :
    (∀ (gaming : Bool) (c : ℚ), rec_cpu_warn gaming ≤ c → c < rec_cpu_bad gaming →
      cpuRec gaming (some c) =
        some { priority := .Low, title := "CPU moderately loaded" }) ∧
    (∀ (gaming : Bool) (mp : String) (v : ℚ),
      rec_disk_bad gaming ≤ v → v < rec_disk_warn gaming →
      diskRec gaming { mountpoint := mp, free_pct := some v } =
        some { priority := .Medium, title := "Free space getting tight on " ++ mp }) ∧
    (∀ (gaming : Bool) (v : ℚ), rec_ram_warn gaming ≤ v → v < rec_ram_bad gaming →
      ramRec gaming (some v) = some { priority := .Medium, title := "RAM pressure" }) ∧
    (∀ (gaming : Bool) (n : ℕ), rec_startup_warn gaming ≤ n → n < rec_startup_bad gaming →
      startupRec gaming n = some { priority := .Medium, title := "Several startup items" }) ∧
    (∀ (s : Snapshot) (gaming : Bool) (i j : Fin (recommendations s gaming).length),
      i < j → priorityRank ((recommendations s gaming).get i).priority ≤
        priorityRank ((recommendations s gaming).get j).priority) := by
  refine ⟨?_, ?_, ?_, ?_, ?_⟩
  · intro gaming c hw hb
    simp only [cpuRec]
    rw [if_neg (not_le.mpr hb), if_pos hw]
  · intro gaming mp v hb hw
    simp only [diskRec]
    rw [if_neg (not_lt.mpr hb), if_pos hw]
  · intro gaming v hw hb
    simp only [ramRec]
    rw [if_neg (not_le.mpr hb), if_pos hw]
  · intro gaming n hw hb
    unfold startupRec
    rw [if_neg (not_le.mpr hb), if_pos hw]
  · intro s gaming i j hij
    exact List.pairwise_iff_get.mp (recommendations_sorted s gaming) i j hij

/-- Witness for C10 at concrete warn-range metrics and a concrete sorted
list position pair. -/
theorem cpu_warn_rec_low_priority_witness :
    cpuRec false (some 65) = some { priority := .Low, title := "CPU moderately loaded" } ∧
    diskRec false { mountpoint := "C:", free_pct := some 20 } =
      some { priority := .Medium, title := "Free space getting tight on " ++ "C:" } ∧
    ramRec false (some 75) = some { priority := .Medium, title := "RAM pressure" } ∧
    startupRec false 8 = some { priority := .Medium, title := "Several startup items" } ∧
    (∃ i j : Fin (recommendations (⟨some 65, none, [], 0⟩ : Snapshot) false).length,
      i < j ∧
        priorityRank (((recommendations (⟨some 65, none, [], 0⟩ : Snapshot) false).get
          i)).priority ≤
        priorityRank (((recommendations (⟨some 65, none, [], 0⟩ : Snapshot) false).get
          j)).priority) := by
  have hlen : (recommendations (⟨some 65, none, [], 0⟩ : Snapshot) false).length = 3 := by
    with_unfolding_all rfl
  refine ⟨cpu_warn_rec_low_priority.1 false 65
      (by simp only [rec_cpu_warn]; norm_num) (by simp only [rec_cpu_bad]; norm_num),
    cpu_warn_rec_low_priority.2.1 false "C:" 20
      (by simp only [rec_disk_bad]; norm_num) (by simp only [rec_disk_warn]; norm_num),
    cpu_warn_rec_low_priority.2.2.1 false 75
      (by simp only [rec_ram_warn]; norm_num) (by simp only [rec_ram_bad]; norm_num),
    cpu_warn_rec_low_priority.2.2.2.1 false 8
      (by simp only [rec_startup_warn]; norm_num) (by simp only [rec_startup_bad]; norm_num),
    ⟨0, by rw [hlen]; omega⟩, ⟨1, by rw [hlen]; omega⟩, by simp [Fin.lt_def],
    cpu_warn_rec_low_priority.2.2.2.2 (⟨some 65, none, [], 0⟩ : Snapshot) false
      ⟨0, by rw [hlen]; omega⟩ ⟨1, by rw [hlen]; omega⟩ (by simp [Fin.lt_def])⟩

/-- Counterexample to claim C4: a disk with free_pct exactly 25 in general
mode fires the Scorer's warn branch (a "Disk" breakdown entry appears) but
the Recommendation Engine emits no disk recommendation at all: the Scorer
compares with `<=`, the engine with `<`. -/
theorem disk_cutoff_boundary_cex :
    (score_system (⟨none, none, [⟨"C:", some 25⟩], 0⟩ : Snapshot) false).breakdown.map
      Entry.tag = ["Disk"] ∧
    recommendations (⟨none, none, [⟨"C:", some 25⟩], 0⟩ : Snapshot) false =
      [baselineDrivers, baselineStorage] := by
  constructor <;> with_unfolding_all rfl

/-- Claim C4 as amended: the engine uses the same numeric disk cutoffs as
the Scorer and emits exactly one recommendation per disk whose free_pct is
strictly below the warn (or bad) cutoff; away from the exact cutoff values
the severity that fires agrees with the branch of the Scorer, but at a
value equal to a cutoff the Scorer fires (non-strict comparison) while the
engine does not (strict comparison). -/
theorem disk_rec_matches_scorer_cutoffs :
    (∀ gaming : Bool, rec_disk_warn gaming = disk_warn gaming ∧
      rec_disk_bad gaming = disk_bad gaming) ∧
    (∀ (gaming : Bool) (mp : String) (v : ℚ),
      diskRec gaming { mountpoint := mp, free_pct := some v } =
        (recDiskSev gaming v).map (sevDiskRec mp)) ∧
    (∀ (gaming : Bool) (v : ℚ),
      diskPen gaming v = (scoreDiskSev gaming v).map (fun sv =>
        match sv with
        | Sev.bad => ("Disk", penClamp (25 + (disk_bad gaming - v) * 0.8))
        | Sev.warn => ("Disk", penClamp (10 + (disk_warn gaming - v) * 0.5)))) ∧
    (∀ (gaming : Bool) (v : ℚ), v ≠ disk_warn gaming → v ≠ disk_bad gaming →
      recDiskSev gaming v = scoreDiskSev gaming v) ∧
    (∀ (gaming : Bool) (s : Snapshot),
      (s.disks.filterMap (diskRec gaming)).length =
        s.disks.countP (fun d => d.free_pct.elim false
          (fun v => decide (v < rec_disk_warn gaming)))) := by
  refine ⟨?_, ?_, ?_, ?_, ?_⟩
  · intro gaming
    cases gaming <;> exact ⟨rfl, rfl⟩
  · intro gaming mp v
    simp only [diskRec, recDiskSev, sevDiskRec]
    split_ifs <;> rfl
  · intro gaming v
    unfold diskPen scoreDiskSev
    split_ifs <;> rfl
  · intro gaming v hw hb
    have h1 : rec_disk_warn gaming = disk_warn gaming := by cases gaming <;> rfl
    have h2 : rec_disk_bad gaming = disk_bad gaming := by cases gaming <;> rfl
    unfold recDiskSev scoreDiskSev
    rw [h1, h2]
    split_ifs <;>
      first
        | rfl
        | (exfalso
           first
             | (apply hb; linarith)
             | (apply hw; linarith))
  · intro gaming s
    exact diskRec_count gaming s.disks

/-- Witness for the amended C4 at free_pct 10 in general mode. -/
theorem disk_rec_matches_scorer_cutoffs_witness :
    rec_disk_warn false = disk_warn false ∧
    diskRec false { mountpoint := "C:", free_pct := some 10 } =
      (recDiskSev false 10).map (sevDiskRec "C:") ∧
    recDiskSev false 10 = scoreDiskSev false 10 ∧
    (((⟨none, none, [⟨"C:", some 10⟩], 0⟩ : Snapshot)).disks.filterMap
        (diskRec false)).length =
      ((⟨none, none, [⟨"C:", some 10⟩], 0⟩ : Snapshot)).disks.countP
        (fun d => d.free_pct.elim false (fun v => decide (v < rec_disk_warn false))) :=
  ⟨(disk_rec_matches_scorer_cutoffs.1 false).1,
   disk_rec_matches_scorer_cutoffs.2.1 false "C:" 10,
   disk_rec_matches_scorer_cutoffs.2.2.2.1 false 10
     (by simp only [disk_warn]; norm_num) (by simp only [disk_bad]; norm_num),
   disk_rec_matches_scorer_cutoffs.2.2.2.2 false (⟨none, none, [⟨"C:", some 10⟩], 0⟩ : Snapshot)⟩

end Zerolag
